import Mathlib

/-!
Verification development for the Talabat token-harvester scripts
(cookie-session variant in index.js and the credential-mode variant).

The JavaScript source is shallowly embedded: each function below mirrors one
source function.  Timestamps are integers (epoch seconds), JS truthiness of a
numeric field is modelled as the field being nonzero, and JS string
`includes` is modelled by an explicit substring scan.
-/

namespace Talabat

/-- JS `startsWith` on character lists: does the second list start with the
first one? -/
def startsWithList : List Char → List Char → Bool
  | [], _ => true
  | _ :: _, [] => false
  | p :: ps, c :: cs => p = c && startsWithList ps cs

/-- Does `l` contain `pat` as a contiguous run?  Used to model JS
`String.prototype.includes`. -/
def hasSubstring (pat : List Char) : List Char → Bool
  | [] => startsWithList pat []
  | c :: cs => startsWithList pat (c :: cs) || hasSubstring pat cs

/-- Model of JS `s.includes(pat)`. -/
def jsIncludes (s pat : String) : Bool :=
  hasSubstring pat.toList s.toList

/-- Model of JS `s.startsWith(p)`. -/
def strStartsWith (s p : String) : Bool :=
  startsWithList p.toList s.toList

/-- JS `s.split('.')` on the underlying character list: an empty input
yields one empty segment, and every dot starts a new segment. -/
def splitOnDot : List Char → List (List Char)
  | [] => [[]]
  | c :: cs =>
    if c = '.' then [] :: splitOnDot cs
    else
      match splitOnDot cs with
      | [] => [[c]]
      | r :: rs => (c :: r) :: rs

/-- The number of segments of JS `token.split('.')`. -/
def jwtParts (s : String) : Nat :=
  (splitOnDot s.toList).length

/-! ## Token Validator (`validateToken`, index.js lines 79-94 and the
credential-mode file lines 74-89; both copies are identical). -/

/-- A JS value passed to `validateToken`.  The function treats every
non-string identically (it throws at the first guard), so a single
constructor models all non-string candidates. -/
inductive Candidate where
  | str (s : String)
  | nonString
deriving DecidableEq

/-- `validateToken` from the source.  `Except.error` models a thrown
`Error` with the given message; `!token` on a string is true exactly for
the empty string. -/
def validateToken : Candidate → Except String Bool
  | .nonString => .error "Token is empty or not a string"
  | .str s =>
    if s = "" then .error "Token is empty or not a string"
    else if strStartsWith s "eyJ" = false then .error "Invalid JWT format (must start with eyJ)"
    else if jwtParts s ≠ 3 then .error "Invalid JWT structure (must have 3 parts)"
    else .ok true

/-! ## Session Store (`saveCookies` / `loadCookies`, index.js lines 101-158). -/

/-- One serialized cookie record.  `expires` is the numeric `expires` field
(epoch seconds); `none` models an absent field.  Puppeteer uses `-1` as the
session-cookie sentinel. -/
structure Cookie where
  name : String
  value : String
  expires : Option Int
deriving DecidableEq

/-- The filter predicate inside `loadCookies`: the source keeps a cookie
unless `cookie.expires && cookie.expires < now` — an absent or zero
`expires` field is falsy, so such cookies are always kept. -/
def cookieKept (now : Int) (c : Cookie) : Bool :=
  match c.expires with
  | none => true
  | some e => if e ≠ 0 ∧ e < now then false else true

/-- Spec-modelled predicate, from the spec words only: a record whose
`expiresAt` timestamp "has passed relative to load time".  Used to compare
the spec sentence against the source filter `cookieKept`. -/
def expiresPast (now : Int) (c : Cookie) : Bool :=
  match c.expires with
  | none => false
  | some e => if e < now then true else false

/-- `loadCookies` from the source.  `file = none` models an absent cookie
file; `some cs` is the parsed record list.  The result is `none` when the
function returns `false` (installing nothing) and `some installed` when it
returns `true` after `page.setCookie(...installed)`. -/
def loadCookies (file : Option (List Cookie)) (now : Int) : Option (List Cookie) :=
  match file with
  | none => none
  | some cookies =>
    if cookies.length = 0 then none
    else
      let validCookies := cookies.filter (cookieKept now)
      if validCookies.length = 0 then none
      else some validCookies

/-! ## Retry Executor (`retryOperation`, index.js lines 54-74 and the
credential-mode file lines 49-69; both copies are identical up to the
shared `CONFIG.retry` policy `maxAttempts = 3`, `delayMs = 2000`). -/

/-- Observable outcome of one `retryOperation` run: how many times the
operation was invoked, the backoff sleeps performed between failed
attempts (in order, in milliseconds), and the final result. -/
structure RetryResult (α : Type) where
  calls : Nat
  delays : List Nat
  result : Except String α

/-- The body of the `for (let attempt = 1; attempt <= maxAttempts; ...)`
loop.  `fuel` counts the remaining iterations (`retryOperation` starts it
at `maxAttempts` with `attempt = 1`), `lastMsg` is the message of
`lastError`, and `op k` is the outcome of the k-th invocation of the
operation.  When the loop ends without a success the function throws
`context + " failed after " + maxAttempts + " attempts: " + lastError.message`. -/
def retryFrom (maxAttempts delayMs : Nat) (context : String)
    (op : Nat → Except String α) (lastMsg : String) (attempt : Nat) :
    Nat → RetryResult α
  | 0 =>
    ⟨0, [], .error (context ++ " failed after " ++ toString maxAttempts
      ++ " attempts: " ++ lastMsg)⟩
  | fuel + 1 =>
    match op attempt with
    | .ok v => ⟨1, [], .ok v⟩
    | .error e =>
      let rest := retryFrom maxAttempts delayMs context op e (attempt + 1) fuel
      if attempt < maxAttempts then
        ⟨rest.calls + 1, (delayMs * 2 ^ (attempt - 1)) :: rest.delays, rest.result⟩
      else
        ⟨rest.calls + 1, rest.delays, rest.result⟩

/-- `retryOperation` from the source, parametrised by the retry policy
(the source reads `CONFIG.retry.maxAttempts` / `CONFIG.retry.delayMs`). -/
def retryOperation (maxAttempts delayMs : Nat) (context : String)
    (op : Nat → Except String α) : RetryResult α :=
  retryFrom maxAttempts delayMs context op "" 1 maxAttempts

/-! ## Token Interceptor (the `page.on('response', ...)` handler,
index.js lines 290-313 and the credential-mode file lines 133-159; the
latching logic is identical in both). -/

/-- The parsed JSON body, restricted to the one field the handler reads.
`none` models a body with no `access_token` field. -/
structure TokenResponseBody where
  access_token : Option String
deriving DecidableEq

/-- One intercepted network response, as observed by the handler:
its URL, its `content-type` header (`none` when the header is absent),
and the outcome of `response.json()` (`Except.error` when parsing threw). -/
structure HttpResponse where
  url : String
  contentType : Option String
  jsonResult : Except String TokenResponseBody

/-- One firing of the response handler: starting from the current value of
the `capturedToken` slot, return the slot value after the handler runs.
The source assigns `capturedToken = data.access_token` whenever the URL
contains `/v5/token`, the content type contains `application/json`, the
body parses, and `data.access_token` is truthy — with no guard on the
slot already holding a value. -/
def handleResponse (capturedToken : Option String) (response : HttpResponse) :
    Option String :=
  if jsIncludes response.url "/v5/token" then
    match response.contentType with
    | some ct =>
      if jsIncludes ct "application/json" then
        match response.jsonResult with
        | .ok data =>
          match data.access_token with
          | some t => if t ≠ "" then some t else capturedToken
          | none => capturedToken
        | .error _ => capturedToken
      else capturedToken
    | none => capturedToken
  else capturedToken

/-- The slot value after the handler has observed a whole sequence of
responses within one attempt (the slot starts out `null`). -/
def processResponses (responses : List HttpResponse) : Option String :=
  responses.foldl handleResponse none

/-! ## Token poll loop (index.js lines 427-430: 30 iterations; the
credential-mode file lines 249-252: 20 iterations; both sleep 500 ms). -/

/-- The `for (let i = 0; i < n; i++) { if (capturedToken) break; await sleep(500); }`
loop followed by the final read of `capturedToken`.  `latch k` is the
value of the slot after `k` sleeps; `slept` counts sleeps performed so
far and the second argument is the remaining iteration budget.  Returns
the number of 500 ms sleeps performed and the slot value at the final
read. -/
def pollLoopGo (latch : Nat → Option String) (slept : Nat) :
    Nat → Nat × Option String
  | 0 => (slept, latch slept)
  | n + 1 =>
    match latch slept with
    | some t => (slept, some t)
    | none => pollLoopGo latch (slept + 1) n

/-- The poll loop of the cookie-session flow: up to 30 iterations. -/
def tokenPollCookies (latch : Nat → Option String) : Nat × Option String :=
  pollLoopGo latch 0 30

/-- The poll loop of the credential-mode flow: up to 20 iterations. -/
def tokenPollCredentialFlow (latch : Nat → Option String) : Nat × Option String :=
  pollLoopGo latch 0 20

/-! ## Login-state verification (`verifyCookiesValid`, index.js lines 163-189). -/

/-- The DOM facts read by the in-page check. -/
structure DomState where
  hasLogoutButton : Bool
  hasUserMenu : Bool
  hasPasswordField : Bool
deriving DecidableEq

/-- The `page.evaluate` expression inside `verifyCookiesValid`:
`!!(hasLogoutButton || hasUserMenu) && !isLoginPage`, where `isLoginPage`
is the presence of an `input[type="password"]` element. -/
def loggedInCheck (d : DomState) : Bool :=
  (d.hasLogoutButton || d.hasUserMenu) && !d.hasPasswordField

/-- `verifyCookiesValid` from the source: navigation failure is caught and
reported as `false`; otherwise the DOM check decides. -/
def verifyCookiesValid (navOk : Bool) (d : DomState) : Bool :=
  if navOk then loggedInCheck d else false

/-! ## `captureTokenWithCookies` (index.js lines 280-448). -/

/-- Externally observable side effects of one capture attempt. -/
inductive CapEvent where
  | navigated
  | logoutClicked
  | loginSubmitted
  | savedCookies (ok : Bool)
deriving DecidableEq

/-- The environment one capture attempt runs against: the cookie file and
load time seen by `loadCookies`, the outcome of the step-2 `page.goto`,
the navigation outcome and DOM state seen by `verifyCookiesValid`, the
results of the two logout-selector queries (step 3 and step 4), whether
the auto-fill login block succeeds, the token latch as a function of
elapsed 500 ms sleeps, and the outcome of the final `saveCookies`. -/
structure PageEnv where
  file : Option (List Cookie)
  now : Int
  gotoResult : Except String Unit
  verifyNavOk : Bool
  dom : DomState
  logoutClick1 : Bool
  logoutClick2 : Bool
  autofillOk : Bool
  latch : Nat → Option String
  saveOk : Bool

/-- `captureTokenWithCookies` from the source, step for step:
1. `loadCookies`; failure throws before any navigation.
2. `page.goto` of the portal.
3. `verifyCookiesValid`; when it reports not-logged-in and a logout
   control is found, the attempt throws the session-expired error.
4. the forced logout click; when it hits, auto-fill login runs and its
   failure throws.
5. the 30-iteration token poll; an empty latch throws.
6. `saveCookies` with its boolean result ignored, then `validateToken`,
   then the token is returned. -/
def captureTokenWithCookies (env : PageEnv) :
    List CapEvent × Except String String :=
  match loadCookies env.file env.now with
  | none => ([], .error "Failed to load cookies. Please run SETUP MODE first.")
  | some _ =>
    match env.gotoResult with
    | .error e => ([], .error e)
    | .ok _ =>
      let ev1 : List CapEvent := [CapEvent.navigated]
      let isLoggedIn := verifyCookiesValid env.verifyNavOk env.dom
      if isLoggedIn = false ∧ env.logoutClick1 = true then
        (ev1 ++ [CapEvent.logoutClicked],
         .error "Session expired. Please run SETUP MODE again to refresh cookies.")
      else
        let step4 :=
          if env.logoutClick2 then
            if env.autofillOk then
              some (ev1 ++ [CapEvent.logoutClicked, CapEvent.loginSubmitted])
            else none
          else some ev1
        match step4 with
        | none =>
          (ev1 ++ [CapEvent.logoutClicked],
           .error "Auto-fill login failed. Browser may not have saved credentials.")
        | some evs =>
          match (tokenPollCookies env.latch).2 with
          | none => (evs, .error "Token was not captured from network traffic")
          | some tok =>
            let evs2 := evs ++ [CapEvent.savedCookies env.saveOk]
            match validateToken (Candidate.str tok) with
            | .error e => (evs2, .error e)
            | .ok _ => (evs2, .ok tok)

/-! ## `main` (index.js lines 492-568).  The key semantic point is that
`process.exit` terminates the Node process immediately: neither an
enclosing `catch` nor an enclosing `finally` runs after it.  The `Comp`
type below embeds that: `Outcome.exited` propagates through `bind` and
through `tryCatchFinally` without the finalizer being executed, while a
thrown error runs the handler (and the finalizer, unless the handler
itself exits — in `main` the handler always exits). -/

/-- Observable events of a `main` run that the claims talk about. -/
inductive Event where
  | guidanceShown
  | browserClosed
deriving DecidableEq

/-- How a piece of JS code finishes: normal completion, a thrown error, or
`process.exit(code)`. -/
inductive Outcome (α : Type) where
  | value : α → Outcome α
  | thrown : String → Outcome α
  | exited : Nat → Outcome α

/-- A completed computation: the events it emitted, in order, and how it
finished. -/
structure Comp (α : Type) where
  events : List Event
  outcome : Outcome α

def Comp.pure (a : α) : Comp α := ⟨[], .value a⟩

def Comp.throwErr (m : String) : Comp α := ⟨[], .thrown m⟩

/-- `process.exit(code)`. -/
def Comp.exit (code : Nat) : Comp α := ⟨[], .exited code⟩

def Comp.emit (e : Event) : Comp Unit := ⟨[e], .value ()⟩

def Comp.bind (x : Comp α) (f : α → Comp β) : Comp β :=
  match x.outcome with
  | .value a =>
    let y := f a
    ⟨x.events ++ y.events, y.outcome⟩
  | .thrown m => ⟨x.events, .thrown m⟩
  | .exited c => ⟨x.events, .exited c⟩

/-- JS `try { body } catch (e) { handler e } finally { fin }`, with
`process.exit` (the `exited` outcome) bypassing both the handler and the
finalizer. -/
def Comp.tryCatchFinally (body : Comp α) (handler : String → Comp α)
    (fin : Comp Unit) : Comp α :=
  match body.outcome with
  | .exited c => ⟨body.events, .exited c⟩
  | .value a =>
    ⟨body.events ++ fin.events,
      match fin.outcome with
      | .value _ => .value a
      | .thrown m => .thrown m
      | .exited c => .exited c⟩
  | .thrown m =>
    let h := handler m
    match h.outcome with
    | .exited c => ⟨body.events ++ h.events, .exited c⟩
    | .value a =>
      ⟨body.events ++ h.events ++ fin.events,
        match fin.outcome with
        | .value _ => .value a
        | .thrown m2 => .thrown m2
        | .exited c => .exited c⟩
    | .thrown m2 =>
      ⟨body.events ++ h.events ++ fin.events,
        match fin.outcome with
        | .value _ => .thrown m2
        | .thrown m3 => .thrown m3
        | .exited c => .exited c⟩

/-- Lift the result of an awaited fallible step into `Comp`: an `Error`
result propagates as a thrown exception. -/
def compOfExcept : Except String α → Comp α
  | .ok a => Comp.pure a
  | .error e => Comp.throwErr e

def exceptIsOk : Except String α → Bool
  | .ok _ => true
  | .error _ => false

/-- The `try` block of `main` (auto and setup modes).  `initOp`,
`captureOp` and `sheetOp` give the outcome of the k-th invocation of
`initBrowser`, `captureTokenWithCookies` and `updateSheet`; `setupRes` is
the outcome of `setupCookies`.  Every successful path ends in
`process.exit(0)`. -/
def mainBody (setupMode envGoogleOk envSheetOk : Bool)
    (initOp : Nat → Except String Unit) (setupRes : Except String Unit)
    (captureOp : Nat → Except String String)
    (sheetOp : Nat → Except String Unit) : Comp Unit :=
  Comp.bind (compOfExcept (retryOperation 3 2000 "Browser Init" initOp).result)
    (fun _ =>
      if setupMode then
        Comp.bind (compOfExcept setupRes) (fun _ => Comp.exit 0)
      else
        if envGoogleOk = false then
          Comp.throwErr "Missing GOOGLE_SERVICE_ACCOUNT environment variable"
        else if envSheetOk = false then
          Comp.throwErr "Missing SHEET_ID environment variable"
        else
          Comp.bind
            (compOfExcept (retryOperation 3 2000 "Token Capture" captureOp).result)
            (fun _ =>
              Comp.bind
                (compOfExcept
                  (retryOperation 3 2000 "Sheet Update" sheetOp).result)
                (fun _ => Comp.exit 0)))

/-- The `catch` block of `main`: print diagnostics, show the setup-mode
guidance when the message mentions cookies or an expired session, then
`process.exit(1)`. -/
def mainHandler (m : String) : Comp Unit :=
  Comp.bind
    (if jsIncludes m "cookies" || jsIncludes m "Session expired" then
      Comp.emit Event.guidanceShown
    else Comp.pure ())
    (fun _ => Comp.exit 1)

/-- The `finally` block of `main`: close the browser if it was launched. -/
def mainFinally (browserSet : Bool) : Comp Unit :=
  if browserSet then Comp.emit Event.browserClosed else Comp.pure ()

/-- `main` from the source: the `try/catch/finally` assembled from the
pieces above.  The `browser` variable is set exactly when the
`Browser Init` retry succeeded. -/
def mainComp (setupMode envGoogleOk envSheetOk : Bool)
    (initOp : Nat → Except String Unit) (setupRes : Except String Unit)
    (captureOp : Nat → Except String String)
    (sheetOp : Nat → Except String Unit) : Comp Unit :=
  Comp.tryCatchFinally
    (mainBody setupMode envGoogleOk envSheetOk initOp setupRes captureOp sheetOp)
    mainHandler
    (mainFinally (exceptIsOk (retryOperation 3 2000 "Browser Init" initOp).result))

/-! ## Theorems -/

/-- Claim C4: `validateToken` raises exactly when the candidate is empty, is
not a string, does not begin with the fixed prefix `eyJ`, or does not split
into exactly three dot-separated segments; every candidate passing all four
checks yields `true`.  (Purity holds by construction: the embedding is a
total function.) -/
theorem C4_validate_spec (c : Candidate) :
    ((∃ e, validateToken c = .error e) ↔
      (c = Candidate.nonString ∨
        ∃ s, c = Candidate.str s ∧
          (s = "" ∨ strStartsWith s "eyJ" = false ∨ jwtParts s ≠ 3))) ∧
    (∀ s, c = Candidate.str s → s ≠ "" → strStartsWith s "eyJ" = true →
      jwtParts s = 3 → validateToken c = .ok true) := by
  cases c with
  | nonString => simp [validateToken]
  | str s =>
    by_cases h1 : s = ""
    · simp [validateToken, h1]
    · by_cases h2 : strStartsWith s "eyJ" = false
      · simp [validateToken, h1, h2]
      · rw [Bool.not_eq_false] at h2
        by_cases h3 : jwtParts s = 3
        · simp [validateToken, h1, h2, h3]
        · simp [validateToken, h1, h2, h3]

/-- Witness for C4 at concrete candidates. -/
theorem C4_validate_spec_witness :
    validateToken (Candidate.str "eyJhbGciOi.eyJzdWIi.c2ln") = .ok true ∧
    (∃ e, validateToken (Candidate.str "not-a-jwt") = .error e) := by
  constructor
  · exact (C4_validate_spec (Candidate.str "eyJhbGciOi.eyJzdWIi.c2ln")).2 _ rfl
      (by decide) (by decide) (by decide)
  · exact (C4_validate_spec (Candidate.str "not-a-jwt")).1.mpr
      (Or.inr ⟨_, rfl, Or.inr (Or.inl (by decide))⟩)

/-- Claim C8: the DOM check of `verifyCookiesValid` reports logged-in exactly
when a logout control or user-menu element is present and no password field
is present; a password field forces not-logged-in even when a logout
indicator matches; and `verifyCookiesValid` returns the DOM check on
successful navigation and `false` on navigation failure. -/
theorem C8_password_overrides (d : DomState) :
    (loggedInCheck d = true ↔
      (d.hasLogoutButton = true ∨ d.hasUserMenu = true) ∧
        d.hasPasswordField = false) ∧
    (d.hasPasswordField = true → loggedInCheck d = false) ∧
    verifyCookiesValid true d = loggedInCheck d ∧
    verifyCookiesValid false d = false := by
  rcases d with ⟨a, b, p⟩
  cases a <;> cases b <;> cases p <;>
    simp [loggedInCheck, verifyCookiesValid]

/-- Witness for C8: a page showing both a logout control and a password
field is classified as not logged in. -/
theorem C8_password_overrides_witness :
    loggedInCheck ⟨true, false, true⟩ = false ∧
    verifyCookiesValid true ⟨true, false, true⟩ = false := by
  have h := C8_password_overrides ⟨true, false, true⟩
  exact ⟨h.2.1 rfl, h.2.2.1.trans (h.2.1 rfl)⟩

/-- Claim C10: the expiry filter keeps a record exactly when its `expires`
field is absent, zero, or not less than the load time; any negative
`expires` (including the `-1` session-cookie sentinel) is dropped whenever
the load time is nonnegative, while `expires = 0` is always kept. -/
theorem C10_expiry_filter (now : Int) (c : Cookie) :
    (cookieKept now c = true ↔
      (c.expires = none ∨ c.expires = some 0 ∨
        ∃ e, c.expires = some e ∧ now ≤ e)) ∧
    (0 ≤ now → ∀ e, c.expires = some e → e < 0 → cookieKept now c = false) ∧
    (c.expires = some 0 → cookieKept now c = true) := by
  rcases c with ⟨n, v, exp⟩
  cases exp with
  | none => simp [cookieKept]
  | some e =>
    have hk : cookieKept now ⟨n, v, some e⟩ = true ↔ (e = 0 ∨ now ≤ e) := by
      show (if e ≠ 0 ∧ e < now then false else true) = true ↔ (e = 0 ∨ now ≤ e)
      split_ifs with h
      · simp only [Bool.false_eq_true, false_iff]
        omega
      · simp only [true_iff]
        omega
    refine ⟨?_, ?_, ?_⟩
    · rw [hk]
      simp
    · intro hn e2 he2 hneg
      injection he2 with he2
      subst he2
      rw [← Bool.not_eq_true, hk]
      omega
    · intro he
      injection he with he
      subst he
      rw [hk]
      exact Or.inl rfl

/-- Witness for C10: at load time 1000, a sentinel cookie (`expires = -1`)
is dropped and a zero-expiry cookie is kept. -/
theorem C10_expiry_filter_witness :
    cookieKept 1000 ⟨"sid", "a", some (-1)⟩ = false ∧
    cookieKept 1000 ⟨"pref", "b", some 0⟩ = true := by
  refine ⟨(C10_expiry_filter 1000 ⟨"sid", "a", some (-1)⟩).2.1 (by decide) (-1) rfl
    (by decide), (C10_expiry_filter 1000 ⟨"pref", "b", some 0⟩).2.2 rfl⟩

/-- Counterexample to claim C3 as stated: at load time 1 the single record
has `expiresAt = 0`, which has passed relative to load time (K = N = 1), so
the claim demands that `load` return false and install nothing — yet the
source keeps the record (the JS filter only drops a cookie when its
`expires` field is truthy, and `0` is falsy) and returns true, installing
one record. -/
theorem C3_load_counterexample :
    expiresPast 1 ⟨"session", "v", some 0⟩ = true ∧
    loadCookies (some [⟨"session", "v", some 0⟩]) 1 =
      some [⟨"session", "v", some 0⟩] := by decide

/-- Claim C3 (amended): `load` filters with the source predicate — a record
is dropped exactly when its `expires` field is nonzero and less than the
load time, so a record with `expires = 0` survives even though epoch 0 is
in the past — and installs exactly the surviving records, returning true
iff at least one survives; it returns false, installing nothing, when the
file is absent, the set is empty, or no record survives. -/
theorem C3_load_filtering (cs : List Cookie) (now : Int) :
    loadCookies none now = none ∧
    (cs = [] → loadCookies (some cs) now = none) ∧
    ((cs.filter (cookieKept now)).length = 0 →
      loadCookies (some cs) now = none) ∧
    ((cs.filter (cookieKept now)).length ≠ 0 →
      loadCookies (some cs) now = some (cs.filter (cookieKept now)) ∧
      (loadCookies (some cs) now).isSome = true) := by
  refine ⟨rfl, ?_, ?_, ?_⟩
  · intro h; subst h; rfl
  · intro h
    by_cases hc : cs.length = 0
    · simp [loadCookies, hc]
    · simp [loadCookies, hc, h]
  · intro h
    have hc : cs.length ≠ 0 := by
      intro hc
      rw [List.length_eq_zero] at hc
      subst hc
      simp at h
    simp [loadCookies, hc, h]

/-- Witness for C3 (amended): one expired record (epoch 5, load time 10)
and one live record (epoch 20): exactly the live record is installed. -/
theorem C3_load_filtering_witness :
    loadCookies (some [⟨"old", "x", some 5⟩, ⟨"new", "y", some 20⟩]) 10 =
      some [⟨"new", "y", some 20⟩] := by
  have h := (C3_load_filtering [⟨"old", "x", some 5⟩, ⟨"new", "y", some 20⟩] 10).2.2.2
    (by decide)
  have he : ([⟨"old", "x", some 5⟩, ⟨"new", "y", some 20⟩] : List Cookie).filter
      (cookieKept 10) = [⟨"new", "y", some 20⟩] := by decide
  rw [h.1, he]

/-- Helper: if the handler latches value `t` when the slot is empty, it
stores `t` regardless of what the slot already holds — the source assigns
`capturedToken = data.access_token` without checking the slot. -/
theorem handleResponse_override (slot : Option String) (r : HttpResponse)
    (t : String) (h : handleResponse none r = some t) :
    handleResponse slot r = some t := by
  rcases r with ⟨url, ct, jr⟩
  unfold handleResponse at h ⊢
  by_cases hu : jsIncludes url "/v5/token" = true
  · simp only [hu, if_true] at h ⊢
    cases ct with
    | none => exact absurd h (by simp)
    | some c =>
      simp only at h ⊢
      by_cases hc : jsIncludes c "application/json" = true
      · simp only [hc, if_true] at h ⊢
        cases jr with
        | error e => exact absurd h (by simp)
        | ok data =>
          rcases data with ⟨atok⟩
          cases atok with
          | none => simp at h
          | some v =>
            by_cases hv : v = ""
            · subst hv
              simp at h
            · simp only [ne_eq, hv, not_false_eq_true, if_true] at h ⊢
              exact h
      · simp only [hc, if_false] at h
        exact absurd h (by simp)
  · simp only [hu, if_false] at h
    exact absurd h (by simp)

/-- Counterexample to claim C1 as stated: two responses matching the token
endpoint carry different `access_token` values; after both are processed
the slot holds the second value, not the first — the handler has no
first-match-wins guard and overwrites the slot on every match. -/
theorem C1_latch_counterexample :
    handleResponse none
      ⟨"https://portal.talabat.com/v5/token", some "application/json",
        .ok ⟨some "eyJfirst.p.s"⟩⟩ = some "eyJfirst.p.s" ∧
    handleResponse none
      ⟨"https://portal.talabat.com/v5/token", some "application/json",
        .ok ⟨some "eyJsecond.p.s"⟩⟩ = some "eyJsecond.p.s" ∧
    "eyJfirst.p.s" ≠ "eyJsecond.p.s" ∧
    processResponses
      [⟨"https://portal.talabat.com/v5/token", some "application/json",
         .ok ⟨some "eyJfirst.p.s"⟩⟩,
       ⟨"https://portal.talabat.com/v5/token", some "application/json",
         .ok ⟨some "eyJsecond.p.s"⟩⟩] = some "eyJsecond.p.s" := by
  refine ⟨by decide, by decide, by decide, by decide⟩

/-- Claim C1 (amended): the captured-token slot is last-match-wins, not
single-assignment — after any sequence of responses whose final element
latches the value `t`, the slot holds `t`, regardless of earlier matches. -/
theorem C1_latch_last_wins (xs : List HttpResponse) (r : HttpResponse)
    (t : String) (h : handleResponse none r = some t) :
    processResponses (xs ++ [r]) = some t := by
  unfold processResponses
  rw [List.foldl_append]
  exact handleResponse_override _ r t h

/-- Witness for C1 (amended) at the two concrete responses of the
counterexample. -/
theorem C1_latch_last_wins_witness :
    processResponses
      [⟨"https://portal.talabat.com/v5/token", some "application/json",
         .ok ⟨some "eyJaaa.p.s"⟩⟩,
       ⟨"https://portal.talabat.com/v5/token", some "application/json",
         .ok ⟨some "eyJbbb.p.s"⟩⟩] = some "eyJbbb.p.s" := by
  exact C1_latch_last_wins
    [⟨"https://portal.talabat.com/v5/token", some "application/json",
       .ok ⟨some "eyJaaa.p.s"⟩⟩]
    ⟨"https://portal.talabat.com/v5/token", some "application/json",
      .ok ⟨some "eyJbbb.p.s"⟩⟩
    "eyJbbb.p.s" (by decide)

/-- Helper: when every attempt from `attempt` through `maxAttempts` fails,
the retry loop performs all remaining attempts, sleeps
`delayMs * 2 ^ (k - 1)` after each failed attempt `k` except the last, and
throws the wrapped message of the final failure. -/
theorem retryFrom_allFail (maxAttempts delayMs : Nat) (context : String)
    (op : Nat → Except String α) (msgs : Nat → String) :
    ∀ fuel attempt lastMsg, attempt + fuel = maxAttempts + 1 → 1 ≤ attempt →
      (∀ k, attempt ≤ k → k ≤ maxAttempts → op k = .error (msgs k)) →
      retryFrom maxAttempts delayMs context op lastMsg attempt fuel =
        ⟨fuel,
         (List.range' (attempt - 1) (fuel - 1)).map (fun i => delayMs * 2 ^ i),
         .error (context ++ " failed after " ++ toString maxAttempts
           ++ " attempts: " ++ (if fuel = 0 then lastMsg else msgs maxAttempts))⟩ := by
  intro fuel
  induction fuel with
  | zero =>
    intro attempt lastMsg hsum h1 hop
    simp [retryFrom]
  | succ n ih =>
    intro attempt lastMsg hsum h1 hop
    have hle : attempt ≤ maxAttempts := by omega
    have hopa : op attempt = Except.error (msgs attempt) := hop attempt le_rfl hle
    have ihn := ih (attempt + 1) (msgs attempt) (by omega) (by omega)
      (fun k hk1 hk2 => hop k (by omega) hk2)
    simp only [retryFrom, hopa]
    rw [ihn]
    by_cases hA : attempt < maxAttempts
    · have hn : n ≠ 0 := by omega
      obtain ⟨m, rfl⟩ : ∃ m, n = m + 1 := ⟨n - 1, by omega⟩
      rw [if_pos hA]
      congr 1
      simp only [Nat.add_sub_cancel]
      rw [List.range'_succ, List.map_cons, Nat.sub_add_cancel h1]
    · have hn : n = 0 := by omega
      have hAM : attempt = maxAttempts := by omega
      subst hn
      rw [if_neg hA]
      congr 1
      simp [hAM]

/-- Helper: when attempt `k` is the first to succeed, the loop returns its
value after exactly `k + 1 - attempt` invocations. -/
theorem retryFrom_success (maxAttempts delayMs : Nat) (context : String)
    (op : Nat → Except String α) (msgs : Nat → String) :
    ∀ fuel attempt lastMsg k v, attempt + fuel = maxAttempts + 1 → 1 ≤ attempt →
      attempt ≤ k → k ≤ maxAttempts → op k = .ok v →
      (∀ j, attempt ≤ j → j < k → op j = .error (msgs j)) →
      (retryFrom maxAttempts delayMs context op lastMsg attempt fuel).calls =
        k + 1 - attempt ∧
      (retryFrom maxAttempts delayMs context op lastMsg attempt fuel).result =
        .ok v := by
  intro fuel
  induction fuel with
  | zero =>
    intro attempt lastMsg k v hsum h1 hak hkM hok hfail
    exfalso
    omega
  | succ n ih =>
    intro attempt lastMsg k v hsum h1 hak hkM hok hfail
    by_cases heq : attempt = k
    · subst heq
      simp only [retryFrom, hok]
      exact ⟨by omega, trivial⟩
    · have hlt : attempt < k := by omega
      have hopa : op attempt = Except.error (msgs attempt) := hfail attempt le_rfl hlt
      have hA : attempt < maxAttempts := by omega
      have ihn := ih (attempt + 1) (msgs attempt) k v (by omega) (by omega) (by omega)
        hkM hok (fun j hj1 hj2 => hfail j (by omega) hj2)
      simp only [retryFrom, hopa, if_pos hA]
      exact ⟨by rw [ihn.1]; omega, ihn.2⟩

/-- Claim C2: for every policy with `maxAttempts ≥ 1`, a permanently
failing operation is invoked exactly `maxAttempts` times with sleeps of
`delayMs * 2 ^ (k - 1)` after each failed attempt `k` except the last
(that is, the delay list is `delayMs * 2 ^ i` for `i = 0, ..,
maxAttempts - 2`), and the final error wraps the last failure message;
an operation first succeeding at attempt `k` is invoked exactly `k` times
and its value is returned. -/
theorem C2_retry_behavior (maxAttempts delayMs : Nat) (context : String)
    (op : Nat → Except String α) (msgs : Nat → String) (hmax : 1 ≤ maxAttempts) :
    ((∀ k, 1 ≤ k → k ≤ maxAttempts → op k = .error (msgs k)) →
      (retryOperation maxAttempts delayMs context op).calls = maxAttempts ∧
      (retryOperation maxAttempts delayMs context op).delays =
        (List.range (maxAttempts - 1)).map (fun i => delayMs * 2 ^ i) ∧
      (retryOperation maxAttempts delayMs context op).result =
        .error (context ++ " failed after " ++ toString maxAttempts
          ++ " attempts: " ++ msgs maxAttempts)) ∧
    (∀ k v, 1 ≤ k → k ≤ maxAttempts → op k = .ok v →
      (∀ j, 1 ≤ j → j < k → op j = .error (msgs j)) →
      (retryOperation maxAttempts delayMs context op).calls = k ∧
      (retryOperation maxAttempts delayMs context op).result = .ok v) := by
  constructor
  · intro hop
    have h := retryFrom_allFail maxAttempts delayMs context op msgs maxAttempts 1 ""
      (by omega) le_rfl (fun k hk1 hk2 => hop k hk1 hk2)
    unfold retryOperation
    rw [h]
    have hz : maxAttempts ≠ 0 := by omega
    refine ⟨rfl, ?_, by simp [hz]⟩
    simp [List.range_eq_range']
  · intro k v hk1 hkM hok hfail
    have h := retryFrom_success maxAttempts delayMs context op msgs maxAttempts 1 "" k v
      (by omega) le_rfl hk1 hkM hok (fun j hj1 hj2 => hfail j hj1 hj2)
    unfold retryOperation
    exact ⟨by rw [h.1]; omega, h.2⟩

/-- Witness for C2 with the source policy `maxAttempts = 3,
delayMs = 2000`: a permanently failing operation is called 3 times with
sleeps 2000 ms then 4000 ms and the wrapped final message; an operation
succeeding on attempt 2 is called twice and returns its value. -/
theorem C2_retry_behavior_witness :
    (retryOperation 3 2000 "Token Capture"
      (fun _ => (Except.error "net down" : Except String String))).calls = 3 ∧
    (retryOperation 3 2000 "Token Capture"
      (fun _ => (Except.error "net down" : Except String String))).delays =
      [2000, 4000] ∧
    (retryOperation 3 2000 "Token Capture"
      (fun _ => (Except.error "net down" : Except String String))).result =
      Except.error "Token Capture failed after 3 attempts: net down" ∧
    (retryOperation 3 2000 "Sheet Update"
      (fun k => if k = 2 then Except.ok "v" else Except.error "e1")).calls = 2 ∧
    (retryOperation 3 2000 "Sheet Update"
      (fun k => if k = 2 then Except.ok "v" else Except.error "e1")).result =
      Except.ok "v" := by
  have h1 := (C2_retry_behavior 3 2000 "Token Capture"
    (fun _ => (Except.error "net down" : Except String String))
    (fun _ => "net down") (by decide)).1 (fun k hk1 hk2 => rfl)
  have h2 := (C2_retry_behavior 3 2000 "Sheet Update"
    (fun k => if k = 2 then Except.ok "v" else Except.error "e1")
    (fun _ => "e1") (by decide)).2 2 "v" (by decide) (by decide) rfl
    (fun j hj1 hj2 => by
      have hj : j ≠ 2 := by omega
      simp [hj])
  refine ⟨h1.1, ?_, ?_, h2.1, h2.2⟩
  · rw [h1.2.1]; decide
  · rw [h1.2.2]; rfl

/-- Helper: the poll loop performs at most as many sleeps as its iteration
budget allows. -/
theorem pollLoopGo_bound (latch : Nat → Option String) :
    ∀ n slept, (pollLoopGo latch slept n).1 ≤ slept + n := by
  intro n
  induction n with
  | zero =>
    intro slept
    show slept ≤ slept + 0
    omega
  | succ m ih =>
    intro slept
    show (match latch slept with
      | some t => (slept, some t)
      | none => pollLoopGo latch (slept + 1) m).1 ≤ slept + (m + 1)
    cases latch slept with
    | some t =>
      show slept ≤ slept + (m + 1)
      omega
    | none =>
      have hih := ih (slept + 1)
      show (pollLoopGo latch (slept + 1) m).1 ≤ slept + (m + 1)
      omega

/-- Helper: a latch that stays empty for the whole budget makes the poll
loop consume every iteration and come up empty. -/
theorem pollLoopGo_allNone (latch : Nat → Option String) :
    ∀ n slept, (∀ i, i ≤ slept + n → latch i = none) →
      pollLoopGo latch slept n = (slept + n, none) := by
  intro n
  induction n with
  | zero =>
    intro slept h
    show (slept, latch slept) = (slept + 0, none)
    rw [h slept (by omega)]
    exact congrArg (fun z => (z, (none : Option String))) (by omega)
  | succ m ih =>
    intro slept h
    show (match latch slept with
      | some t => (slept, some t)
      | none => pollLoopGo latch (slept + 1) m) = (slept + (m + 1), none)
    rw [h slept (by omega)]
    have hih := ih (slept + 1) (fun i hi => h i (by omega))
    show pollLoopGo latch (slept + 1) m = (slept + (m + 1), none)
    rw [hih]
    exact congrArg (fun z => (z, (none : Option String))) (by omega)

/-- Helper: under the hypotheses that make one capture attempt reach the
polling phase — cookies loaded, navigation succeeded, the session-expired
short-circuit not taken, and auto-fill succeeding whenever the logout
click hits — the attempt result is decided by the poll outcome and the
validator. -/
theorem capture_reaches_poll (env : PageEnv)
    (hload : loadCookies env.file env.now ≠ none)
    (hgoto : env.gotoResult = Except.ok ())
    (hpath : verifyCookiesValid env.verifyNavOk env.dom = true ∨
      env.logoutClick1 = false)
    (hauto : env.logoutClick2 = true → env.autofillOk = true) :
    (captureTokenWithCookies env).2 =
      (match (tokenPollCookies env.latch).2 with
       | none => Except.error "Token was not captured from network traffic"
       | some tok =>
         match validateToken (Candidate.str tok) with
         | .error e => Except.error e
         | .ok _ => Except.ok tok) := by
  obtain ⟨cs, hcs⟩ := Option.ne_none_iff_exists'.mp hload
  unfold captureTokenWithCookies
  simp only [hcs, hgoto]
  have hcond : ¬(verifyCookiesValid env.verifyNavOk env.dom = false ∧
      env.logoutClick1 = true) := by
    rcases hpath with h | h
    · rintro ⟨h1, h2⟩
      rw [h] at h1
      exact absurd h1 (by decide)
    · rintro ⟨h1, h2⟩
      rw [h] at h2
      exact absurd h2 (by decide)
  rw [if_neg hcond]
  cases hlc2 : env.logoutClick2 with
  | false =>
    simp only [hlc2, Bool.false_eq_true, if_false]
    cases hp : (tokenPollCookies env.latch).2 with
    | none => rfl
    | some tok =>
      dsimp only
      cases hv : validateToken (Candidate.str tok) with
      | error e => rfl
      | ok b => rfl
  | true =>
    have haf : env.autofillOk = true := hauto hlc2
    simp only [hlc2, haf, if_true]
    cases hp : (tokenPollCookies env.latch).2 with
    | none => rfl
    | some tok =>
      dsimp only
      cases hv : validateToken (Candidate.str tok) with
      | error e => rfl
      | ok b => rfl

/-- Counterexample to claim C5 as stated: with a latch that never fills, the
cookie-flow loop polls 30 times (15 s at 500 ms per sleep) and the
credential-flow loop 20 times — both exceed the claimed bound of
approximately 10 to 15 polls. -/
theorem C5_poll_counterexample :
    tokenPollCookies (fun _ => none) = (30, none) ∧
    15 < (tokenPollCookies (fun _ => none)).1 ∧
    tokenPollCredentialFlow (fun _ => none) = (20, none) ∧
    15 < (tokenPollCredentialFlow (fun _ => none)).1 := by
  refine ⟨by decide, by decide, by decide, by decide⟩

/-- Claim C5 (amended): the capture flow polls the latch at a fixed 500 ms
interval for at most 30 polls (≤ 15 s total; 20 polls / 10 s in the
credential-mode flow); an always-empty latch consumes the whole budget,
after which the attempt fails with the token-not-captured error. -/
theorem C5_poll_budget (latch : Nat → Option String) (env : PageEnv) :
    (tokenPollCookies latch).1 ≤ 30 ∧
    500 * (tokenPollCookies latch).1 ≤ 15000 ∧
    (tokenPollCredentialFlow latch).1 ≤ 20 ∧
    ((∀ i, i ≤ 30 → latch i = none) → tokenPollCookies latch = (30, none)) ∧
    ((tokenPollCookies env.latch).2 = none →
      loadCookies env.file env.now ≠ none →
      env.gotoResult = Except.ok () →
      (verifyCookiesValid env.verifyNavOk env.dom = true ∨
        env.logoutClick1 = false) →
      (env.logoutClick2 = true → env.autofillOk = true) →
      (captureTokenWithCookies env).2 =
        Except.error "Token was not captured from network traffic") := by
  have hb : (tokenPollCookies latch).1 ≤ 0 + 30 := pollLoopGo_bound latch 30 0
  have hb2 : (tokenPollCredentialFlow latch).1 ≤ 0 + 20 := pollLoopGo_bound latch 20 0
  refine ⟨by omega, by omega, by omega, ?_, ?_⟩
  · intro h
    exact pollLoopGo_allNone latch 30 0 (fun i hi => h i (by omega))
  · intro hp hload hgoto hpath hauto
    rw [capture_reaches_poll env hload hgoto hpath hauto, hp]

/-- Witness for C5 (amended): an always-empty latch yields 30 polls in the
cookie flow, and the concrete attempt fails with the token-not-captured
error. -/
theorem C5_poll_budget_witness :
    (tokenPollCookies (fun _ => none)).1 ≤ 30 ∧
    tokenPollCookies (fun _ => none) = (30, none) ∧
    (captureTokenWithCookies
      ⟨some [⟨"gid", "x", none⟩], 0, Except.ok (), true, ⟨true, false, false⟩,
        false, false, true, fun _ => none, true⟩).2 =
      Except.error "Token was not captured from network traffic" := by
  have h := C5_poll_budget (fun _ => none)
    ⟨some [⟨"gid", "x", none⟩], 0, Except.ok (), true, ⟨true, false, false⟩,
      false, false, true, fun _ => none, true⟩
  refine ⟨h.1, h.2.2.2.1 (fun i hi => rfl), ?_⟩
  exact h.2.2.2.2 (by decide) (by decide) rfl (Or.inr rfl) (fun hc => by simp at hc)

/-- Claim C9: the boolean result of the step-6 `saveCookies` is ignored —
whenever the attempt reaches the polling phase, captures a token, and the
token validates, the attempt returns the token even when the cookie save
fails; more generally the attempt result never depends on the save
outcome. -/
theorem C9_save_result_ignored (env : PageEnv) (tok : String)
    (hload : loadCookies env.file env.now ≠ none)
    (hgoto : env.gotoResult = Except.ok ())
    (hpath : verifyCookiesValid env.verifyNavOk env.dom = true ∨
      env.logoutClick1 = false)
    (hauto : env.logoutClick2 = true → env.autofillOk = true)
    (hpoll : (tokenPollCookies env.latch).2 = some tok)
    (hvalid : validateToken (Candidate.str tok) = Except.ok true) :
    (captureTokenWithCookies { env with saveOk := false }).2 = Except.ok tok ∧
    (∀ (e : PageEnv) (b : Bool),
      (captureTokenWithCookies { e with saveOk := b }).2 =
        (captureTokenWithCookies e).2) := by
  have hgen : ∀ (e : PageEnv) (b : Bool),
      (captureTokenWithCookies { e with saveOk := b }).2 =
        (captureTokenWithCookies e).2 := by
    intro e b
    rcases e with ⟨file, now, gotoR, vnav, dom, lc1, lc2, af, latch, so⟩
    unfold captureTokenWithCookies
    cases hl : loadCookies file now with
    | none => rfl
    | some cs =>
      cases hg : gotoR with
      | error m => rfl
      | ok u =>
        simp only
        by_cases hc : verifyCookiesValid vnav dom = false ∧ lc1 = true
        · rw [if_pos hc, if_pos hc]
        · rw [if_neg hc, if_neg hc]
          cases lc2 with
          | false =>
            simp only [Bool.false_eq_true, if_false]
            cases hp : (tokenPollCookies latch).2 with
            | none => rfl
            | some t =>
              dsimp only
              cases hv : validateToken (Candidate.str t) with
              | error m => rfl
              | ok w => rfl
          | true =>
            cases af with
            | false => rfl
            | true =>
              simp only [if_true]
              cases hp : (tokenPollCookies latch).2 with
              | none => rfl
              | some t =>
                dsimp only
                cases hv : validateToken (Candidate.str t) with
                | error m => rfl
                | ok w => rfl
  refine ⟨?_, hgen⟩
  rw [hgen env false]
  rw [capture_reaches_poll env hload hgoto hpath hauto]
  simp only [hpoll, hvalid]

/-- Witness for C9: a concrete attempt whose `saveCookies` fails still
returns the captured, validated token. -/
theorem C9_save_result_ignored_witness :
    (captureTokenWithCookies
      ⟨some [⟨"gid", "x", none⟩], 0, Except.ok (), true, ⟨true, false, false⟩,
        false, false, true, fun _ => some "eyJh.p.s", false⟩).2 =
      Except.ok "eyJh.p.s" := by
  have h := C9_save_result_ignored
    ⟨some [⟨"gid", "x", none⟩], 0, Except.ok (), true, ⟨true, false, false⟩,
      false, false, true, fun _ => some "eyJh.p.s", true⟩
    "eyJh.p.s" (by decide) rfl (Or.inr rfl) (fun hc => by simp at hc)
    (by decide) rfl
  exact h.1

/-- Helper: the `try` block of `main` emits no events and always finishes
either by `process.exit(0)` or by throwing. -/
theorem mainBody_spec (setupMode envGoogleOk envSheetOk : Bool)
    (initOp : Nat → Except String Unit) (setupRes : Except String Unit)
    (captureOp : Nat → Except String String)
    (sheetOp : Nat → Except String Unit) :
    (mainBody setupMode envGoogleOk envSheetOk initOp setupRes
      captureOp sheetOp).events = [] ∧
    ((mainBody setupMode envGoogleOk envSheetOk initOp setupRes
        captureOp sheetOp).outcome = Outcome.exited 0 ∨
      ∃ m, (mainBody setupMode envGoogleOk envSheetOk initOp setupRes
        captureOp sheetOp).outcome = Outcome.thrown m) := by
  unfold mainBody
  cases h1 : (retryOperation 3 2000 "Browser Init" initOp).result with
  | error e => exact ⟨rfl, Or.inr ⟨e, rfl⟩⟩
  | ok u =>
    cases setupMode with
    | true =>
      cases setupRes with
      | error e => exact ⟨rfl, Or.inr ⟨e, rfl⟩⟩
      | ok v => exact ⟨rfl, Or.inl rfl⟩
    | false =>
      cases envGoogleOk with
      | false => exact ⟨rfl, Or.inr ⟨_, rfl⟩⟩
      | true =>
        cases envSheetOk with
        | false => exact ⟨rfl, Or.inr ⟨_, rfl⟩⟩
        | true =>
          cases h2 : (retryOperation 3 2000 "Token Capture" captureOp).result with
          | error e => exact ⟨rfl, Or.inr ⟨e, rfl⟩⟩
          | ok tok =>
            cases h3 : (retryOperation 3 2000 "Sheet Update" sheetOp).result with
            | error e => exact ⟨rfl, Or.inr ⟨e, rfl⟩⟩
            | ok w => exact ⟨rfl, Or.inl rfl⟩

/-- Helper: the `catch` block always ends in `process.exit(1)`, having
emitted at most the guidance message — never a browser-close. -/
theorem mainHandler_spec (m : String) :
    (mainHandler m).outcome = Outcome.exited 1 ∧
    ((mainHandler m).events = [Event.guidanceShown] ∨
      (mainHandler m).events = []) ∧
    ((jsIncludes m "cookies" || jsIncludes m "Session expired") = true →
      (mainHandler m).events = [Event.guidanceShown]) := by
  unfold mainHandler
  by_cases hm : (jsIncludes m "cookies" || jsIncludes m "Session expired") = true
  · rw [if_pos hm]
    exact ⟨rfl, Or.inl rfl, fun _ => rfl⟩
  · rw [if_neg hm]
    exact ⟨rfl, Or.inr rfl, fun h => absurd h hm⟩

/-- Helper: when the `try` block exits, `tryCatchFinally` propagates its
outcome and events unchanged — the finalizer is skipped. -/
theorem mainComp_of_exit0 (setupMode envGoogleOk envSheetOk : Bool)
    (initOp : Nat → Except String Unit) (setupRes : Except String Unit)
    (captureOp : Nat → Except String String)
    (sheetOp : Nat → Except String Unit)
    (hm : (mainBody setupMode envGoogleOk envSheetOk initOp setupRes
      captureOp sheetOp).outcome = Outcome.exited 0) :
    (mainComp setupMode envGoogleOk envSheetOk initOp setupRes
      captureOp sheetOp).outcome = Outcome.exited 0 ∧
    (mainComp setupMode envGoogleOk envSheetOk initOp setupRes
      captureOp sheetOp).events =
      (mainBody setupMode envGoogleOk envSheetOk initOp setupRes
        captureOp sheetOp).events := by
  unfold mainComp Comp.tryCatchFinally
  simp only [hm]
  exact ⟨trivial, trivial⟩

/-- Helper: when the `try` block throws, the handler runs, ends in
`process.exit(1)`, and the finalizer is skipped. -/
theorem mainComp_of_thrown (setupMode envGoogleOk envSheetOk : Bool)
    (initOp : Nat → Except String Unit) (setupRes : Except String Unit)
    (captureOp : Nat → Except String String)
    (sheetOp : Nat → Except String Unit) (m : String)
    (hm : (mainBody setupMode envGoogleOk envSheetOk initOp setupRes
      captureOp sheetOp).outcome = Outcome.thrown m) :
    (mainComp setupMode envGoogleOk envSheetOk initOp setupRes
      captureOp sheetOp).outcome = Outcome.exited 1 ∧
    (mainComp setupMode envGoogleOk envSheetOk initOp setupRes
      captureOp sheetOp).events =
      (mainBody setupMode envGoogleOk envSheetOk initOp setupRes
        captureOp sheetOp).events ++ (mainHandler m).events := by
  unfold mainComp Comp.tryCatchFinally
  simp only [hm, (mainHandler_spec m).1]
  exact ⟨trivial, trivial⟩

/-- Claim C6: the process exits with code 0 on success and code 1 on any
unrecovered failure, but — contrary to the cleanup half of the claim — the
browser is never closed before exit: both `process.exit(0)` and
`process.exit(1)` sit inside the `try`/`catch`, and `process.exit`
terminates Node immediately, so the `finally` block containing
`browser.close()` never runs on any path. -/
theorem C6_exit_without_browser_close (setupMode envGoogleOk envSheetOk : Bool)
    (initOp : Nat → Except String Unit) (setupRes : Except String Unit)
    (captureOp : Nat → Except String String)
    (sheetOp : Nat → Except String Unit) :
    Event.browserClosed ∉
      (mainComp setupMode envGoogleOk envSheetOk initOp setupRes
        captureOp sheetOp).events ∧
    ((mainComp setupMode envGoogleOk envSheetOk initOp setupRes
        captureOp sheetOp).outcome = Outcome.exited 0 ∨
      (mainComp setupMode envGoogleOk envSheetOk initOp setupRes
        captureOp sheetOp).outcome = Outcome.exited 1) := by
  have hb := mainBody_spec setupMode envGoogleOk envSheetOk initOp setupRes
    captureOp sheetOp
  rcases hb.2 with h | ⟨m, h⟩
  · obtain ⟨ho, he⟩ := mainComp_of_exit0 setupMode envGoogleOk envSheetOk
      initOp setupRes captureOp sheetOp h
    rw [he, hb.1]
    exact ⟨by simp, Or.inl ho⟩
  · obtain ⟨ho, he⟩ := mainComp_of_thrown setupMode envGoogleOk envSheetOk
      initOp setupRes captureOp sheetOp m h
    rw [he, hb.1]
    refine ⟨?_, Or.inr ho⟩
    rcases (mainHandler_spec m).2.1 with hev | hev <;> simp [hev]

/-- Claim C7: when `loadCookies` fails, the capture attempt throws — before
any navigation — the distinguished error telling the user to run SETUP
MODE; with the `maxAttempts = 3` policy the Retry Executor invokes the
attempt 3 times and exhausts, and `main` then shows the setup-mode
guidance and exits with code 1. -/
theorem C7_expired_session_guidance (env : PageEnv)
    (hload : loadCookies env.file env.now = none)
    (initOp : Nat → Except String Unit) (hinit : ∀ k, initOp k = Except.ok ())
    (sheetOp : Nat → Except String Unit) :
    captureTokenWithCookies env =
      ([], Except.error "Failed to load cookies. Please run SETUP MODE first.") ∧
    (retryOperation 3 2000 "Token Capture"
      (fun _ => (captureTokenWithCookies env).2)).calls = 3 ∧
    (mainComp false true true initOp (Except.ok ())
        (fun _ => (captureTokenWithCookies env).2) sheetOp).outcome =
      Outcome.exited 1 ∧
    Event.guidanceShown ∈
      (mainComp false true true initOp (Except.ok ())
        (fun _ => (captureTokenWithCookies env).2) sheetOp).events := by
  have hcap : captureTokenWithCookies env =
      ([], Except.error "Failed to load cookies. Please run SETUP MODE first.") := by
    unfold captureTokenWithCookies
    rw [hload]
  have hinitres := retryFrom_success 3 2000 "Browser Init" initOp (fun _ => "")
    3 1 "" 1 () (by omega) (by omega) (by omega) (by omega) (hinit 1)
    (fun j hj1 hj2 => absurd hj2 (by omega))
  have hinit2 : (retryOperation 3 2000 "Browser Init" initOp).result =
      Except.ok () := hinitres.2
  have hcapres := retryFrom_allFail 3 2000 "Token Capture"
    (fun _ => (captureTokenWithCookies env).2)
    (fun _ => "Failed to load cookies. Please run SETUP MODE first.") 3 1 ""
    (by omega) (by omega) (fun k hk1 hk2 => by rw [hcap])
  have hcap2 : (retryOperation 3 2000 "Token Capture"
      (fun _ => (captureTokenWithCookies env).2)).result =
      Except.error ("Token Capture" ++ " failed after " ++ toString 3
        ++ " attempts: "
        ++ "Failed to load cookies. Please run SETUP MODE first.") := by
    show (retryFrom 3 2000 "Token Capture"
      (fun _ => (captureTokenWithCookies env).2) "" 1 3).result = _
    rw [hcapres]
    rfl
  have hbody : (mainBody false true true initOp (Except.ok ())
        (fun _ => (captureTokenWithCookies env).2) sheetOp).outcome =
        Outcome.thrown ("Token Capture" ++ " failed after " ++ toString 3
          ++ " attempts: "
          ++ "Failed to load cookies. Please run SETUP MODE first.") ∧
      (mainBody false true true initOp (Except.ok ())
        (fun _ => (captureTokenWithCookies env).2) sheetOp).events = [] := by
    unfold mainBody
    rw [hinit2, hcap2]
    exact ⟨rfl, rfl⟩
  obtain ⟨ho, he⟩ := mainComp_of_thrown false true true initOp (Except.ok ())
    (fun _ => (captureTokenWithCookies env).2) sheetOp _ hbody.1
  refine ⟨hcap, ?_, ho, ?_⟩
  · show (retryFrom 3 2000 "Token Capture"
      (fun _ => (captureTokenWithCookies env).2) "" 1 3).calls = 3
    rw [hcapres]
  · rw [he, hbody.2]
    rw [(mainHandler_spec _).2.2 (by decide)]
    simp

/-- Witness for C7: a run with no cookie file at all exits 1 after showing
the setup-mode guidance. -/
theorem C7_expired_session_guidance_witness :
    (mainComp false true true (fun _ => Except.ok ()) (Except.ok ())
        (fun _ => (captureTokenWithCookies
          ⟨none, 0, Except.ok (), true, ⟨false, false, false⟩, false, false,
            true, fun _ => none, true⟩).2)
        (fun _ => Except.ok ())).outcome = Outcome.exited 1 ∧
    Event.guidanceShown ∈
      (mainComp false true true (fun _ => Except.ok ()) (Except.ok ())
        (fun _ => (captureTokenWithCookies
          ⟨none, 0, Except.ok (), true, ⟨false, false, false⟩, false, false,
            true, fun _ => none, true⟩).2)
        (fun _ => Except.ok ())).events := by
  have h := C7_expired_session_guidance
    ⟨none, 0, Except.ok (), true, ⟨false, false, false⟩, false, false, true,
      fun _ => none, true⟩
    rfl (fun _ => Except.ok ()) (fun k => rfl) (fun _ => Except.ok ())
  exact ⟨h.2.2.1, h.2.2.2⟩

end Talabat
